import Mathlib

/-!
Shallow embedding of the LoRA API server (src/LORA_API_SERVER.py):
an OpenAI-compatible chat-completion endpoint over a locally loaded
causal language model with a LoRA adapter.

The tokenizer and the model are external collaborators; they are
embedded as records of fallible functions (`Except String`), and the
handler `chat_completionsT` is the translation of the Python handler
`chat_completions`, threading the 16 random bytes drawn by
`os.urandom(16)` as an explicit `entropy` argument and recording which
pipeline stages were invoked so that "no work performed" statements can
be made precise.
-/

namespace LoraServer

/-- Configured model name (`MODEL_NAME = "chatmod-lora"`). -/
def MODEL_NAME : String := "chatmod-lora"

/-- A chat message: `class Message(BaseModel): role: str; content: str`. -/
structure Message where
  role : String
  content : String
deriving DecidableEq

/-- `class ChatCompletionRequest(BaseModel)`.  `temperature`,
`max_tokens` and `stream` are `Optional` fields; an explicit JSON
`null` arrives as `none`, while a missing field is filled with the
pydantic defaults `0.7`, `512` and `false` (as `some`). -/
structure ChatCompletionRequest where
  model : String
  messages : List Message
  temperature : Option ℚ
  max_tokens : Option Int
  stream : Option Bool
deriving DecidableEq

/-- `class ModelInfo(BaseModel)` / the literal dict in `list_models`. -/
structure ModelInfo where
  id : String
  object : String
  created : Int
  owned_by : String
deriving DecidableEq

/-- `class ModelsResponse(BaseModel)`. -/
structure ModelsResponse where
  object : String
  data : List ModelInfo
deriving DecidableEq

/-- `GET /v1/models`: returns the fixed one-element model listing. -/
def list_models : ModelsResponse :=
  { object := "list"
    data := [{ id := MODEL_NAME
               object := "model"
               created := 1769270732
               owned_by := "owner" }] }

/-- Python truthiness fallback `x or d` for an optional integer:
`None` and `0` are falsy and select the default. -/
def pyOrInt (x : Option Int) (d : Int) : Int :=
  match x with
  | none => d
  | some v => if v = 0 then d else v

/-- Python truthiness fallback `x or d` for an optional rational
(modelling the float `temperature`): `None` and `0.0` are falsy. -/
def pyOrRat (x : Option ℚ) (d : ℚ) : ℚ :=
  match x with
  | none => d
  | some v => if v = 0 then d else v

/-- The hard operational ceiling on new tokens, the literal `200` in
`min(request.max_tokens or 512, 200)`. -/
def HARD_CAP : Int := 200

/-- The token budget actually passed to `model.generate` as
`max_new_tokens`: `min(request.max_tokens or 512, 200)`. -/
def effective_max_new_tokens (max_tokens : Option Int) : Int :=
  min (pyOrInt max_tokens 512) HARD_CAP

/-- The temperature actually passed to `model.generate`:
`request.temperature or 0.7`. -/
def effective_temperature (temperature : Option ℚ) : ℚ :=
  pyOrRat temperature (7 / 10)

/-- One Llama-3.1 block for a single message, or `none` for an
unrecognized role: the if/elif chain inside `format_messages_for_llama`. -/
def renderMessage (msg : Message) : Option String :=
  if msg.role = "system" then
    some ("<|begin_of_text|><|start_header_id|>system<|end_header_id|>\n\n"
      ++ msg.content ++ "<|eot_id|>\n")
  else if msg.role = "user" then
    some ("<|start_header_id|>user<|end_header_id|>\n\n"
      ++ msg.content ++ "<|eot_id|>\n")
  else if msg.role = "assistant" then
    some ("<|start_header_id|>assistant<|end_header_id|>\n\n"
      ++ msg.content ++ "<|eot_id|>\n")
  else none

/-- The unconditional trailing assistant-turn opening marker. -/
def assistant_open_marker : String :=
  "<|start_header_id|>assistant<|end_header_id|>\n\n"

/-- `format_messages_for_llama(messages)`: fold every message through
the role chain, then append the assistant-opening marker. -/
def format_messages_for_llama (messages : List Message) : String :=
  (messages.foldl
    (fun formatted msg =>
      match renderMessage msg with
      | some block => formatted ++ block
      | none => formatted)
    "")
  ++ assistant_open_marker

/-- Lower-case hexadecimal digit for `n < 16`, as produced by Python's
`bytes.hex()` (`0`..`9` then `a`..`f`). -/
def hexDigit (n : Nat) : Char :=
  if n < 10 then Char.ofNat (48 + n) else Char.ofNat (87 + n)

/-- Two hex characters for one byte. -/
def byteHexChars (b : Nat) : List Char :=
  [hexDigit (b / 16), hexDigit (b % 16)]

/-- Hex characters of a byte string. -/
def bytesHexChars : List Nat → List Char
  | [] => []
  | b :: bs => byteHexChars b ++ bytesHexChars bs

/-- `bytes.hex()`: lower-case hex encoding of a byte string. -/
def bytes_hex (bs : List Nat) : String :=
  String.mk (bytesHexChars bs)

/-- The response identifier `"chatcmpl-" + os.urandom(16).hex()`, with
the 16 random bytes made an explicit argument. -/
def response_id (entropy : List Nat) : String :=
  "chatcmpl-" ++ bytes_hex entropy

/-- The tokenizer collaborator: encoding a prompt to token ids
(`tokenizer(prompt)`; `input_ids` row) and decoding a token-id
sequence back to text with `skip_special_tokens=True`
(`tokenizer.decode`).  Either operation may raise, hence
`Except String`. -/
structure Tokenizer where
  encode : String → Except String (List Nat)
  decode : List Nat → Except String String

/-- The model collaborator: `model.generate(input_ids, temperature,
max_new_tokens, ...)` returning the full output token row `outputs[0]`
(prompt tokens followed by newly sampled tokens); sampling
nondeterminism is captured by quantifying over `Model` values.  May
raise, hence `Except String`. -/
structure Model where
  generate : List Nat → ℚ → Int → Except String (List Nat)

/-- The two process-wide globals `tokenizer` and `model`, each `None`
until `load_model_with_lora` has completed. -/
structure ModelState where
  tokenizer : Option Tokenizer
  model : Option Model

/-- `{"role": "assistant", "content": ...}` inside a choice. -/
structure ChoiceMessage where
  role : String
  content : String
deriving DecidableEq

/-- One entry of the `choices` array. -/
structure Choice where
  index : Int
  message : ChoiceMessage
  finish_reason : String
deriving DecidableEq

/-- The `usage` object of a successful response. -/
structure Usage where
  prompt_tokens : Int
  completion_tokens : Int
  total_tokens : Int
deriving DecidableEq

/-- The OpenAI-shaped success envelope returned by `chat_completions`. -/
structure CompletionResponse where
  id : String
  object : String
  created : Int
  model : String
  choices : List Choice
  usage : Usage
deriving DecidableEq

/-- HTTP outcome of the handler: a 200 with a completion envelope, or
an `HTTPException(status_code, detail)`. -/
inductive HttpResponse where
  | ok (resp : CompletionResponse)
  | error (status : Nat) (detail : String)
deriving DecidableEq

/-- Pipeline stages of the handler's `try` block, recorded as they are
invoked so that absence of work can be stated. -/
inductive Stage where
  | tokenize
  | generate
  | decode
deriving DecidableEq

/-- The `POST /v1/chat/completions` handler `chat_completions`,
instrumented with the list of pipeline stages invoked.

Mirrors the source line by line: the readiness gate
(`if model is None or tokenizer is None: raise HTTPException(503,
"Modell nicht geladen")`), then inside `try`: prompt formatting,
tokenization, generation with `max_new_tokens=min(request.max_tokens
or 512, 200)` and `temperature=request.temperature or 0.7`, decoding
of `outputs[0][prompt_len:]`, and the response dict; `except
Exception as e: raise HTTPException(500, str(e))`. -/
def chat_completionsT (st : ModelState) (entropy : List Nat)
    (request : ChatCompletionRequest) : HttpResponse × List Stage :=
  match st.model, st.tokenizer with
  | some mo, some tok =>
    let prompt := format_messages_for_llama request.messages
    match tok.encode prompt with
    | Except.error e => (HttpResponse.error 500 e, [Stage.tokenize])
    | Except.ok input_ids =>
      match mo.generate input_ids
          (effective_temperature request.temperature)
          (effective_max_new_tokens request.max_tokens) with
      | Except.error e =>
          (HttpResponse.error 500 e, [Stage.tokenize, Stage.generate])
      | Except.ok outputs =>
        match tok.decode (outputs.drop input_ids.length) with
        | Except.error e =>
            (HttpResponse.error 500 e,
             [Stage.tokenize, Stage.generate, Stage.decode])
        | Except.ok generated_text =>
            (HttpResponse.ok
              { id := response_id entropy
                object := "chat.completion"
                created := 1769270732
                model := MODEL_NAME
                choices := [{ index := 0
                              message := { role := "assistant"
                                           content := generated_text.trim }
                              finish_reason := "stop" }]
                usage := { prompt_tokens := (input_ids.length : Int)
                           completion_tokens :=
                             (outputs.length : Int) - (input_ids.length : Int)
                           total_tokens := (outputs.length : Int) } },
             [Stage.tokenize, Stage.generate, Stage.decode])
  | _, _ => (HttpResponse.error 503 "Modell nicht geladen", [])

/-- The HTTP response of the handler, stages discarded. -/
def chat_completions (st : ModelState) (entropy : List Nat)
    (request : ChatCompletionRequest) : HttpResponse :=
  (chat_completionsT st entropy request).1

/-- The first fault raised inside the handler's `try` block, if any:
`none` means the whole pipeline succeeds. -/
def pipeline_fault (tok : Tokenizer) (mo : Model)
    (request : ChatCompletionRequest) : Option String :=
  match tok.encode (format_messages_for_llama request.messages) with
  | Except.error e => some e
  | Except.ok input_ids =>
    match mo.generate input_ids
        (effective_temperature request.temperature)
        (effective_max_new_tokens request.max_tokens) with
    | Except.error e => some e
    | Except.ok outputs =>
      match tok.decode (outputs.drop input_ids.length) with
      | Except.error e => some e
      | Except.ok _ => none

/-- The response id of a successful response, `none` on an error. -/
def response_id_of : HttpResponse → Option String
  | HttpResponse.ok resp => some resp.id
  | HttpResponse.error _ _ => none

/-! ## Helper lemmas -/

theorem string_join_cons (s : String) (l : List String) :
    String.join (s :: l) = s ++ String.join l := by
  apply String.ext
  simp [String.join_eq]

theorem foldl_render_eq (msgs : List Message) (acc : String) :
    (msgs.foldl
      (fun formatted msg =>
        match renderMessage msg with
        | some block => formatted ++ block
        | none => formatted)
      acc)
    = acc ++ String.join (msgs.filterMap renderMessage) := by
  induction msgs generalizing acc with
  | nil => simp [String.join]
  | cons m rest ih =>
    cases h : renderMessage m with
    | none => simp [List.foldl_cons, h, ih]
    | some b =>
        simp [List.foldl_cons, h, ih, string_join_cons, String.append_assoc]

theorem format_eq_blocks (msgs : List Message) :
    format_messages_for_llama msgs
      = String.join (msgs.filterMap renderMessage) ++ assistant_open_marker := by
  unfold format_messages_for_llama
  rw [foldl_render_eq, String.empty_append]

/-- Inversion for a successful handler run: a 200 response can arise
only from a ready store and a fault-free pipeline, and the envelope is
exactly the literal dict of the source. -/
theorem chat_ok_inversion (st : ModelState) (ent : List Nat)
    (req : ChatCompletionRequest) (resp : CompletionResponse)
    (h : (chat_completionsT st ent req).1 = HttpResponse.ok resp) :
    ∃ tok mo input_ids outputs text,
      st.tokenizer = some tok ∧ st.model = some mo
      ∧ tok.encode (format_messages_for_llama req.messages)
          = Except.ok input_ids
      ∧ mo.generate input_ids (effective_temperature req.temperature)
          (effective_max_new_tokens req.max_tokens) = Except.ok outputs
      ∧ tok.decode (outputs.drop input_ids.length) = Except.ok text
      ∧ resp = { id := response_id ent
                 object := "chat.completion"
                 created := 1769270732
                 model := MODEL_NAME
                 choices := [{ index := 0
                               message := { role := "assistant"
                                            content := text.trim }
                               finish_reason := "stop" }]
                 usage := { prompt_tokens := (input_ids.length : Int)
                            completion_tokens :=
                              (outputs.length : Int) - (input_ids.length : Int)
                            total_tokens := (outputs.length : Int) } } := by
  obtain ⟨tok?, mo?⟩ := st
  cases mo? with
  | none => simp [chat_completionsT] at h
  | some mo =>
    cases tok? with
    | none => simp [chat_completionsT] at h
    | some tok =>
      simp only [chat_completionsT] at h
      split at h
      next e henc => simp at h
      next input_ids henc =>
        split at h
        next e hgen => simp at h
        next outputs hgen =>
          split at h
          next e hdec => simp at h
          next text hdec =>
            simp only [HttpResponse.ok.injEq] at h
            exact ⟨tok, mo, input_ids, outputs, text, rfl, rfl,
              henc, hgen, hdec, h.symm⟩

/-- When some pipeline stage faults, the handler returns exactly an
HTTP 500 carrying the fault's message. -/
theorem pipeline_some_500 (tok : Tokenizer) (mo : Model) (ent : List Nat)
    (req : ChatCompletionRequest) (e : String)
    (h : pipeline_fault tok mo req = some e) :
    chat_completions ⟨some tok, some mo⟩ ent req
      = HttpResponse.error 500 e := by
  unfold pipeline_fault at h
  split at h
  next e2 henc =>
    cases h
    simp [chat_completions, chat_completionsT, henc]
  next input_ids henc =>
    split at h
    next e2 hgen =>
      cases h
      simp [chat_completions, chat_completionsT, henc, hgen]
    next outputs hgen =>
      split at h
      next e2 hdec =>
        cases h
        simp [chat_completions, chat_completionsT, henc, hgen, hdec]
      next text hdec => cases h

/-- When no pipeline stage faults, the handler returns a 200 envelope
and every stage was invoked exactly once, in pipeline order. -/
theorem pipeline_none_ok (tok : Tokenizer) (mo : Model) (ent : List Nat)
    (req : ChatCompletionRequest)
    (h : pipeline_fault tok mo req = none) :
    ∃ input_ids outputs text,
      tok.encode (format_messages_for_llama req.messages)
        = Except.ok input_ids
      ∧ mo.generate input_ids (effective_temperature req.temperature)
          (effective_max_new_tokens req.max_tokens) = Except.ok outputs
      ∧ tok.decode (outputs.drop input_ids.length) = Except.ok text
      ∧ chat_completionsT ⟨some tok, some mo⟩ ent req
          = (HttpResponse.ok
              { id := response_id ent
                object := "chat.completion"
                created := 1769270732
                model := MODEL_NAME
                choices := [{ index := 0
                              message := { role := "assistant"
                                           content := text.trim }
                              finish_reason := "stop" }]
                usage := { prompt_tokens := (input_ids.length : Int)
                           completion_tokens :=
                             (outputs.length : Int) - (input_ids.length : Int)
                           total_tokens := (outputs.length : Int) } },
             [Stage.tokenize, Stage.generate, Stage.decode]) := by
  unfold pipeline_fault at h
  split at h
  next e2 henc => cases h
  next input_ids henc =>
    split at h
    next e2 hgen => cases h
    next outputs hgen =>
      split at h
      next e2 hdec => cases h
      next text hdec =>
        refine ⟨input_ids, outputs, text, henc, hgen, hdec, ?_⟩
        simp [chat_completionsT, henc, hgen, hdec]

theorem hexDigit_injOn (m n : Nat) (hm : m < 16) (hn : n < 16)
    (h : hexDigit m = hexDigit n) : m = n := by
  have key : ∀ a b : Fin 16, hexDigit a.val = hexDigit b.val → a = b := by decide
  have := key ⟨m, hm⟩ ⟨n, hn⟩ h
  exact congrArg Fin.val this

theorem byteHexChars_injOn (a b : Nat) (ha : a < 256) (hb : b < 256)
    (h : byteHexChars a = byteHexChars b) : a = b := by
  simp only [byteHexChars, List.cons.injEq, and_true] at h
  obtain ⟨h1, h2⟩ := h
  have hd : a / 16 = b / 16 :=
    hexDigit_injOn _ _ (by omega) (by omega) h1
  have hm : a % 16 = b % 16 :=
    hexDigit_injOn _ _ (by omega) (by omega) h2
  omega

theorem bytesHexChars_injOn :
    ∀ (l1 l2 : List Nat), (∀ b ∈ l1, b < 256) → (∀ b ∈ l2, b < 256) →
      l1.length = l2.length → bytesHexChars l1 = bytesHexChars l2 → l1 = l2
  | [], [], _, _, _, _ => rfl
  | a :: as, b :: bs, h1, h2, hlen, h => by
      simp only [bytesHexChars, byteHexChars, List.cons_append,
        List.nil_append, List.cons.injEq] at h
      obtain ⟨hd1, hd2, hrest⟩ := h
      have ha : a < 256 := h1 a (by simp)
      have hb : b < 256 := h2 b (by simp)
      have hab : a = b :=
        byteHexChars_injOn a b ha hb (by simp [byteHexChars, hd1, hd2])
      have htail : as = bs :=
        bytesHexChars_injOn as bs (fun x hx => h1 x (by simp [hx]))
          (fun x hx => h2 x (by simp [hx])) (by simpa using hlen) hrest
      simp [hab, htail]

theorem response_id_injOn (e1 e2 : List Nat)
    (h1 : ∀ b ∈ e1, b < 256) (h2 : ∀ b ∈ e2, b < 256)
    (hlen : e1.length = e2.length) (h : response_id e1 = response_id e2) :
    e1 = e2 := by
  unfold response_id bytes_hex at h
  have hdata := congrArg String.data h
  simp only [String.data_append] at hdata
  have hchars : bytesHexChars e1 = bytesHexChars e2 :=
    List.append_cancel_left hdata
  exact bytesHexChars_injOn e1 e2 h1 h2 hlen hchars

/-! ## Concrete instances used to exhibit witnesses -/

/-- A request with an empty conversation (all optional fields at their
pydantic defaults). -/
def req0 : ChatCompletionRequest :=
  { model := "chatmod-lora"
    messages := []
    temperature := some (7 / 10)
    max_tokens := some 512
    stream := some false }

/-- A one-message request. -/
def reqA : ChatCompletionRequest :=
  { model := "chatmod-lora"
    messages := [{ role := "user", content := "A" }]
    temperature := some (7 / 10)
    max_tokens := some 512
    stream := some false }

/-- A second request, differing from `reqA` in its message content. -/
def reqB : ChatCompletionRequest :=
  { model := "chatmod-lora"
    messages := [{ role := "user", content := "B" }]
    temperature := some (7 / 10)
    max_tokens := some 512
    stream := some false }

/-- A tokenizer whose encode always yields two tokens and whose decode
always yields text with surrounding whitespace. -/
def tokOk : Tokenizer :=
  { encode := fun _ => Except.ok [1, 2]
    decode := fun _ => Except.ok " hello " }

/-- A tokenizer whose encode always raises. -/
def tokFail : Tokenizer :=
  { encode := fun _ => Except.error "boom"
    decode := fun _ => Except.ok "" }

/-- A model that appends one new token to its prompt. -/
def moOk : Model :=
  { generate := fun ids _ _ => Except.ok (ids ++ [7]) }

/-- A ready model store. -/
def stOk : ModelState := { tokenizer := some tokOk, model := some moOk }

/-- Sixteen concrete entropy bytes. -/
def ent0 : List Nat :=
  [0, 1, 2, 3, 4, 5, 6, 7, 8, 9, 10, 11, 12, 13, 14, 15]

/-- Sixteen different concrete entropy bytes. -/
def ent1 : List Nat :=
  [255, 1, 2, 3, 4, 5, 6, 7, 8, 9, 10, 11, 12, 13, 14, 15]

/-- The response the handler produces from `stOk`, `ent0`, `reqA`. -/
def respA : CompletionResponse :=
  { id := response_id ent0
    object := "chat.completion"
    created := 1769270732
    model := MODEL_NAME
    choices := [{ index := 0
                  message := { role := "assistant"
                               content := " hello ".trim }
                  finish_reason := "stop" }]
    usage := { prompt_tokens := 2, completion_tokens := 1, total_tokens := 3 } }

/-! ## Claim theorems -/

/-- C1 counterexample: the claimed law
`effective_max = min(requested_max_tokens, HARD_CAP)` fails for the
present-but-zero budget `max_tokens = 0`: the code yields `200`, the
claimed formula yields `0`. -/
theorem C1_counterexample :
    effective_max_new_tokens (some 0) = 200
    ∧ min (0 : Int) HARD_CAP = 0
    ∧ effective_max_new_tokens (some 0) ≠ min (0 : Int) HARD_CAP := by
  decide

/-- C1 (amended): for every present nonzero `max_tokens` the budget
passed to generate is `min(max_tokens, HARD_CAP)`; an absent (or zero)
`max_tokens` is first replaced by the default 512 and then clamped;
and in all cases the effective budget is at most `HARD_CAP`. -/
theorem C1_amended_clamp (mt : Int) (h : mt ≠ 0) :
    effective_max_new_tokens (some mt) = min mt HARD_CAP
    ∧ effective_max_new_tokens none = min 512 HARD_CAP
    ∧ effective_max_new_tokens (some 0) = min 512 HARD_CAP
    ∧ ∀ x : Option Int, effective_max_new_tokens x ≤ HARD_CAP := by
  refine ⟨?_, rfl, rfl, ?_⟩
  · simp [effective_max_new_tokens, pyOrInt, h]
  · intro x
    exact min_le_right _ _

/-- Witness for C1 (amended) at the concrete budget 300. -/
theorem C1_amended_clamp_witness :
    effective_max_new_tokens (some 300) = min 300 HARD_CAP :=
  (C1_amended_clamp 300 (by decide)).1

/-- C4: for every non-empty message sequence the formatter output is
exactly the concatenation, in input order, of one rendered block per
recognized-role message (`system`/`user`/`assistant`; any other role
contributes no block), followed by the assistant-opening marker — in
particular the output ends with that marker. -/
theorem C4_formatter_blocks (msgs : List Message) (_h : msgs ≠ []) :
    format_messages_for_llama msgs
      = String.join (msgs.filterMap renderMessage) ++ assistant_open_marker
    ∧ (∀ m : Message, (renderMessage m).isSome
        ↔ (m.role = "system" ∨ m.role = "user" ∨ m.role = "assistant")) := by
  refine ⟨format_eq_blocks msgs, ?_⟩
  intro m
  unfold renderMessage
  by_cases h1 : m.role = "system"
  · simp [h1]
  · by_cases h2 : m.role = "user"
    · simp [h1, h2]
    · by_cases h3 : m.role = "assistant"
      · simp [h1, h2, h3]
      · simp [h1, h2, h3]

/-- Witness for C4 on the one-message conversation of `reqA`. -/
theorem C4_formatter_blocks_witness :
    format_messages_for_llama reqA.messages
      = String.join (reqA.messages.filterMap renderMessage)
          ++ assistant_open_marker :=
  (C4_formatter_blocks reqA.messages (by decide)).1

/-- C7: the temperature passed to generate is the client value
unmodified (no clamping) whenever it is present and nonzero, and is
exactly 0.7 when absent or falsy (`None`, `0.0`). -/
theorem C7_temperature_passthrough (t : ℚ) (h : t ≠ 0) :
    effective_temperature (some t) = t
    ∧ effective_temperature none = 7 / 10
    ∧ effective_temperature (some 0) = 7 / 10 := by
  refine ⟨?_, rfl, ?_⟩
  · simp [effective_temperature, pyOrRat, h]
  · simp [effective_temperature, pyOrRat]

/-- Witness for C7 at the concrete temperature 3/2. -/
theorem C7_temperature_passthrough_witness :
    effective_temperature (some (3 / 2)) = 3 / 2 :=
  (C7_temperature_passthrough (3 / 2) (by norm_num)).1

/-- C9: a falsy `max_tokens` (absent or 0) is not honored as a
zero-token budget: the default 512 is substituted and then clamped to
the hard cap, so the effective budget is 200. -/
theorem C9_zero_max_tokens_becomes_cap :
    effective_max_new_tokens (some 0) = HARD_CAP
    ∧ effective_max_new_tokens none = HARD_CAP
    ∧ effective_max_new_tokens (some 0) = min 512 HARD_CAP
    ∧ HARD_CAP = 200 := by
  decide

/-- C2: while the model store is not ready (model or tokenizer not
loaded), the handler answers exactly HTTP 503 with the not-loaded
detail and invokes no pipeline stage at all — no tokenization, no
generation, no queuing. -/
theorem C2_not_ready_503 (st : ModelState) (ent : List Nat)
    (req : ChatCompletionRequest)
    (h : st.model = none ∨ st.tokenizer = none) :
    chat_completionsT st ent req
      = (HttpResponse.error 503 "Modell nicht geladen", []) := by
  obtain ⟨tok?, mo?⟩ := st
  simp only at h
  cases mo? with
  | none => cases tok? <;> rfl
  | some mo =>
    cases tok? with
    | none => rfl
    | some tok => simp at h

/-- Witness for C2 on a store with nothing loaded. -/
theorem C2_not_ready_503_witness :
    chat_completionsT { tokenizer := none, model := none } ent0 req0
      = (HttpResponse.error 503 "Modell nicht geladen", []) :=
  C2_not_ready_503 { tokenizer := none, model := none } ent0 req0 (Or.inl rfl)

/-- C3: on a ready store, every fault raised anywhere in the
tokenize-format-generate-decode pipeline is converted into exactly an
HTTP 500 whose detail is the fault's own message, and when no fault
occurs the handler returns a success envelope — no fault escapes the
boundary and none is swallowed. -/
theorem C3_pipeline_fault_500 (tok : Tokenizer) (mo : Model)
    (ent : List Nat) (req : ChatCompletionRequest) :
    (∀ e, pipeline_fault tok mo req = some e →
        chat_completions { tokenizer := some tok, model := some mo } ent req
          = HttpResponse.error 500 e)
    ∧ (pipeline_fault tok mo req = none →
        ∃ resp,
          chat_completions { tokenizer := some tok, model := some mo } ent req
            = HttpResponse.ok resp) := by
  constructor
  · intro e h
    exact pipeline_some_500 tok mo ent req e h
  · intro h
    obtain ⟨input_ids, outputs, text, henc, hgen, hdec, hrun⟩ :=
      pipeline_none_ok tok mo ent req h
    exact ⟨_, by unfold chat_completions; rw [hrun]⟩

/-- Witness for C3 with a tokenizer that raises `"boom"`. -/
theorem C3_pipeline_fault_500_witness :
    chat_completions { tokenizer := some tokFail, model := some moOk } ent0 req0
      = HttpResponse.error 500 "boom" :=
  (C3_pipeline_fault_500 tokFail moOk ent0 req0).1 "boom" rfl

/-- C5: in every successful response, `prompt_tokens` is the tokenized
input length measured before generation, `completion_tokens` is the
total generated output length minus `prompt_tokens`, and
`total_tokens = prompt_tokens + completion_tokens` exactly. -/
theorem C5_usage_accounting (st : ModelState) (ent : List Nat)
    (req : ChatCompletionRequest) (resp : CompletionResponse)
    (h : chat_completions st ent req = HttpResponse.ok resp) :
    (∃ tok mo input_ids outputs,
      st.tokenizer = some tok ∧ st.model = some mo
      ∧ tok.encode (format_messages_for_llama req.messages)
          = Except.ok input_ids
      ∧ mo.generate input_ids (effective_temperature req.temperature)
          (effective_max_new_tokens req.max_tokens) = Except.ok outputs
      ∧ resp.usage.prompt_tokens = (input_ids.length : Int)
      ∧ resp.usage.completion_tokens
          = (outputs.length : Int) - (input_ids.length : Int)
      ∧ resp.usage.total_tokens = (outputs.length : Int))
    ∧ resp.usage.total_tokens
        = resp.usage.prompt_tokens + resp.usage.completion_tokens := by
  obtain ⟨tok, mo, input_ids, outputs, text, htok, hmo, henc, hgen, hdec, hresp⟩ :=
    chat_ok_inversion st ent req resp h
  subst hresp
  refine ⟨⟨tok, mo, input_ids, outputs, htok, hmo, henc, hgen, rfl, rfl, rfl⟩, ?_⟩
  simp

/-- Witness for C5 on the concrete ready store and request. -/
theorem C5_usage_accounting_witness :
    respA.usage.total_tokens
      = respA.usage.prompt_tokens + respA.usage.completion_tokens :=
  (C5_usage_accounting stOk ent0 reqA respA rfl).2

/-- C6: an empty `messages` list is processed through the full
pipeline: the formatter yields exactly the assistant-opening marker,
and (when the oracles do not fault) the handler returns a well-formed
success envelope whose single choice has `finish_reason = "stop"`. -/
theorem C6_empty_messages_ok (tok : Tokenizer) (mo : Model) (ent : List Nat)
    (req : ChatCompletionRequest) (hm : req.messages = [])
    (hnf : pipeline_fault tok mo req = none) :
    format_messages_for_llama req.messages = assistant_open_marker
    ∧ ∃ resp,
        chat_completionsT { tokenizer := some tok, model := some mo } ent req
          = (HttpResponse.ok resp,
             [Stage.tokenize, Stage.generate, Stage.decode])
        ∧ resp.choices.length = 1
        ∧ ∀ c ∈ resp.choices, c.finish_reason = "stop" := by
  constructor
  · rw [hm]
    simp [format_messages_for_llama, String.empty_append]
  · obtain ⟨input_ids, outputs, text, henc, hgen, hdec, hrun⟩ :=
      pipeline_none_ok tok mo ent req hnf
    refine ⟨_, hrun, rfl, ?_⟩
    intro c hc
    simp at hc
    rw [hc]

/-- Witness for C6: the empty conversation formats to the bare
assistant-opening marker. -/
theorem C6_empty_messages_ok_witness :
    format_messages_for_llama req0.messages = assistant_open_marker :=
  (C6_empty_messages_ok tokOk moOk ent0 req0 rfl rfl).1

/-- C8 counterexample: response ids depend only on the 16 random
bytes, not on the request; two distinct requests served with the same
entropy bytes receive the same id, so absolute uniqueness is not
guaranteed by the code. -/
theorem C8_distinct_requests_same_id :
    reqA ≠ reqB
    ∧ response_id_of (chat_completions stOk ent0 reqA)
        = response_id_of (chat_completions stOk ent0 reqB)
    ∧ response_id_of (chat_completions stOk ent0 reqA)
        = some (response_id ent0) := by
  refine ⟨by decide, rfl, rfl⟩

/-- C8 (amended): the id of every successful response is the fixed
injective image `"chatcmpl-" ++ hex` of the per-response 16 random
bytes, so requests whose random draws differ get distinct ids —
uniqueness holds exactly when the entropy draws differ, and is
probabilistic, not absolute. -/
theorem C8_id_unique_iff_entropy (e1 e2 : List Nat)
    (h1 : ∀ b ∈ e1, b < 256) (h2 : ∀ b ∈ e2, b < 256)
    (hlen : e1.length = e2.length) (hne : e1 ≠ e2) :
    response_id e1 ≠ response_id e2
    ∧ ∀ (st : ModelState) (req : ChatCompletionRequest)
        (resp : CompletionResponse),
        chat_completions st e1 req = HttpResponse.ok resp
        → resp.id = response_id e1 := by
  constructor
  · intro hid
    exact hne (response_id_injOn e1 e2 h1 h2 hlen hid)
  · intro st req resp h
    obtain ⟨tok, mo, input_ids, outputs, text, _, _, _, _, _, hresp⟩ :=
      chat_ok_inversion st e1 req resp h
    rw [hresp]

/-- Witness for C8 (amended) on two concrete distinct byte draws. -/
theorem C8_id_unique_iff_entropy_witness :
    response_id ent0 ≠ response_id ent1 :=
  (C8_id_unique_iff_entropy ent0 ent1 (by decide) (by decide) rfl
    (by decide)).1

/-- C10: the `created` field of every successful completion response
and of every `/v1/models` entry is the hard-coded epoch constant
1769270732, independent of request, entropy and store state. -/
theorem C10_created_constant (st : ModelState) (ent : List Nat)
    (req : ChatCompletionRequest) (resp : CompletionResponse)
    (h : chat_completions st ent req = HttpResponse.ok resp) :
    resp.created = 1769270732
    ∧ ∀ m ∈ list_models.data, m.created = 1769270732 := by
  constructor
  · obtain ⟨tok, mo, input_ids, outputs, text, _, _, _, _, _, hresp⟩ :=
      chat_ok_inversion st ent req resp h
    rw [hresp]
  · intro m hm
    simp [list_models] at hm
    rw [hm]

/-- Witness for C10 on the concrete successful response. -/
theorem C10_created_constant_witness :
    respA.created = 1769270732 :=
  (C10_created_constant stOk ent0 reqA respA rfl).1

end LoraServer
